import Mathlib

/-!
Shallow embedding of the authentication and session-security core of the
AdoptionSystem repository (Go/Echo backend).

The embedded code lives in:
 - `backend/internal/services/security/two_factor_auth.go` (`Generate2FA`),
 - `backend/internal/services/security` (`GeneratePassword`, found in the
   security snapshot appended to `species_services.go`),
 - `backend/internal/db/dao/user.go` (documented snapshot: `GetValidatedUser`,
   `Get2FA`, `GetUserByEmail`, `GetUserBySessionID`, `UpdateLoginData`,
   `IncrementFailedLogins`, `ResetFailedLogins`, `GetUserHashedPassword`,
   `UpdateTwoFactorCode`, `GenerateSessionID`, `ResetPassword`, `CreateUser`,
   `UpdateUser`),
 - `backend/internal/services/backend_calls/user_services.go`
   (`AuthenticateUser`, `AuthenticateUser2FA`, `RefreshUser2FAToken`,
   `AuthenticateGoogleUser`, `ResetPassword`).

Modelling conventions:
 - The database is a list of user rows; GORM `First`/`Where email = ?` is
   `List.find?` on the row list, and GORM `Updates`/`Where` is a `List.map`
   that rewrites every matching row.  `RowsAffected == 0` corresponds to no
   row matching the `Where` clause (every matched row is changed because the
   Go code always writes `upt_date := now()` alongside the payload;
   timestamps themselves are omitted from the model since no verified
   property mentions them).
 - `crypto/rand.Read` is modelled by a `RandSource`: `none` is a failed read
   (the Go code then returns `""`), `some f` a successful read where `f i` is
   the i-th random byte (a value in 0..255).
 - The bcrypt collaborators `security.VerifyPassword` / `security.HashPassword`
   and the mailer are opaque function parameters.
 - Go's stringly-typed errors are modelled by the inductive `Err`, one
   constructor per distinct `fmt.Errorf` format string reachable in the
   embedded paths.
 - A Go function that ignores an error and leaves a `nil` pointer that is
   then dereferenced is modelled with an explicit crash outcome
   (`ResetOutcome.nilDereference`).
-/

namespace AdoptionSystem

/-- Alphabet of `security.Generate2FA`:
`"0123456789ABCDEFGHIJKLMNOPQRSTUVWXYZ"` (36 characters). -/
def alpha36 : List Char := "0123456789ABCDEFGHIJKLMNOPQRSTUVWXYZ".toList

/-- Alphabet of `security.GeneratePassword`:
`"0123456789ABCDEFGHIJKLMNOPQRSTUVWXYZabcdefghijklmnopqrstuvwxyz!@#$%^&*"`
(70 characters). -/
def alpha70 : List Char :=
  "0123456789ABCDEFGHIJKLMNOPQRSTUVWXYZabcdefghijklmnopqrstuvwxyz!@#$%^&*".toList

/-- Model of the `crypto/rand.Read` collaborator: `none` models a failed read (the Go
generators then return `""`), `some f` a successful read whose i-th byte is
`f i` (bytes are 0..255; for such values `f i % 36` is exactly the Go
expression `char % byte(len(characters))`). -/
def RandSource : Type := Option (Nat → Nat)

/-- Embedding of `security.Generate2FA(length)`: `length` random bytes, each mapped to
`characters[char % byte(len(characters))]` over the 36-character alphabet;
returns `""` when the random read fails. -/
def generate2FA (rand : RandSource) (length : Nat) : String :=
  match rand with
  | none => ""
  | some bytes =>
    String.mk ((List.range length).map (fun i => alpha36.getD (bytes i % alpha36.length) 'A'))

/-- Embedding of `security.GeneratePassword(length)`: identical structure over the
70-character extended alphabet. -/
def generatePassword (rand : RandSource) (length : Nat) : String :=
  match rand with
  | none => ""
  | some bytes =>
    String.mk ((List.range length).map (fun i => alpha70.getD (bytes i % alpha70.length) 'A'))

/-- A row of the `Users` table (union of the security fields read or written
by the embedded code; cf. `m.FullUser` and the provider migration). -/
structure User where
  id : Nat
  name : String
  surname : String
  email : String
  sessionID : String
  address : String
  failedLogins : Nat
  isBlocked : Bool
  twoFactorAuth : String
  password : String
  provider : String
  providerID : String
  changePassword : Bool
  deriving DecidableEq, Repr

/-- The users table. -/
abbrev DB : Type := List User

/-- The `m.NonValidatedUser` DTO (no password / session / 2FA fields; the
`Provider` field is filled only by `GetUserByEmail`). -/
structure NonValidatedUser where
  id : Nat
  name : String
  surname : String
  email : String
  address : String
  failedLogins : Nat
  isBlocked : Bool
  provider : String
  deriving DecidableEq, Repr

/-- One constructor per distinct `fmt.Errorf` format string reachable in the
embedded code paths; `inner` records a wrapped `%v` error. -/
inductive Err where
  | emailNotFound (email : String)
  | emailReadFailed (email : String)
  | sessionNotFound (sessionID : String)
  | accountBlocked
  | passwordRequired
  | invalidCredentials
  | failedLoginsReadFailed (email : String)
  | get2FAReadFailed (sessionID : String)
  | hashFailed
  | userFetchFailed (inner : Err)
  | get2FAFailed (inner : Err)
  | invalidTwoFactorCode
  | gen2FATokenFailed
  | send2FAMailFailed (email : String)
  | invalidGoogleToken
  | googleEmailMissing
  | twoFactorUpdateFailed (email : String)
  | sessionUpdateFailed (email : String)
  | sessionIDGenFailed (inner : Err)
  | unsupportedProvider
  | resetPasswordFailed (inner : Err)
  deriving DecidableEq, Repr

/-- Lookup `SELECT * FROM users WHERE email = ? ... First`. -/
def findByEmail (db : DB) (email : String) : Option User :=
  db.find? (fun u => u.email = email)

/-- Lookup `SELECT * FROM users WHERE Session_ID = ? ... First`. -/
def findBySessionID (db : DB) (sessionID : String) : Option User :=
  db.find? (fun u => u.sessionID = sessionID)

/-- Embedding of `dao.GetUserByEmail`: row lookup projected to the DTO (with `Provider`). -/
def getUserByEmail (db : DB) (email : String) : Except Err NonValidatedUser :=
  match findByEmail db email with
  | none => .error (.emailReadFailed email)
  | some u =>
    .ok { id := u.id, name := u.name, surname := u.surname, email := u.email,
          address := u.address, failedLogins := u.failedLogins,
          isBlocked := u.isBlocked, provider := u.provider }

/-- Embedding of `dao.GetUserBySessionID`: row lookup projected to the DTO (the Go code
does not copy `Provider` here, so it stays at its zero value `""`). -/
def getUserBySessionID (db : DB) (sessionID : String) : Except Err NonValidatedUser :=
  match findBySessionID db sessionID with
  | none => .error (.sessionNotFound sessionID)
  | some u =>
    .ok { id := u.id, name := u.name, surname := u.surname, email := u.email,
          address := u.address, failedLogins := u.failedLogins,
          isBlocked := u.isBlocked, provider := "" }

/-- Embedding of `dao.Get2FA`: `SELECT Two_Factor_Auth WHERE Session_ID = ? ... First`. -/
def get2FA (db : DB) (sessionID : String) : Except Err String :=
  match findBySessionID db sessionID with
  | none => .error (.get2FAReadFailed sessionID)
  | some u => .ok u.twoFactorAuth

/-- Embedding of `dao.GetUserHashedPassword`: `Scan` leaves the destination at `""` and
reports no error when no row matches. -/
def getUserHashedPassword (db : DB) (email : String) : String :=
  match findByEmail db email with
  | none => ""
  | some u => u.password

/-- Embedding of `dao.GetValidatedUser` (documented snapshot, user.go lines 359-396):
email lookup, then blocked check, then the google-provider shortcut that
skips password validation, then empty-password check, then bcrypt
verification against the stored hash. -/
def getValidatedUser (verify : String → String → Bool) (db : DB)
    (email password : String) : Except Err User :=
  match findByEmail db email with
  | none => .error (.emailNotFound email)
  | some user =>
    if user.isBlocked then .error .accountBlocked
    else if user.provider = "google" then .ok user
    else if password = "" then .error .passwordRequired
    else if verify (getUserHashedPassword db email) password then .ok user
    else .error .invalidCredentials

/-- Embedding of `dao.UpdateLoginData`: `UPDATE users SET failed_logins, is_blocked WHERE
email = ?`, erroring when `RowsAffected == 0`. -/
def updateLoginData (db : DB) (email : String) (failedLogins : Nat)
    (isBlocked : Bool) : Except Err DB :=
  let db2 := db.map (fun u =>
    if u.email = email then
      { u with failedLogins := failedLogins, isBlocked := isBlocked }
    else u)
  if db.any (fun u => u.email = email) then .ok db2
  else .error (.emailNotFound email)

/-- Embedding of `dao.IncrementFailedLogins`: read the current counter, add 1, block when
the new count reaches 5, write both via `UpdateLoginData`. -/
def incrementFailedLogins (db : DB) (email : String) : Except Err DB :=
  match findByEmail db email with
  | none => .error (.failedLoginsReadFailed email)
  | some u =>
    let newFailedLogins := u.failedLogins + 1
    updateLoginData db email newFailedLogins (decide (5 ≤ newFailedLogins))

/-- Embedding of `dao.ResetFailedLogins`: `UpdateLoginData(email, 0, false)`. -/
def resetFailedLogins (db : DB) (email : String) : Except Err DB :=
  updateLoginData db email 0 false

/-- Embedding of `dao.GenerateSessionID`: mint `Generate2FA(50)` and write it to the
`session_id` column of every row matching the email; the Go code errors when
the follow-up `GetUserByEmail` fails or `RowsAffected == 0`, both of which
occur exactly when no row has the email. -/
def generateSessionID (rand : RandSource) (db : DB) (email : String) :
    Except Err (String × DB) :=
  let sessionID := generate2FA rand 50
  let db2 := db.map (fun u =>
    if u.email = email then { u with sessionID := sessionID } else u)
  if db.any (fun u => u.email = email) then .ok (sessionID, db2)
  else .error (.sessionUpdateFailed email)

/-- Embedding of `dao.UpdateTwoFactorCode`: mint `Generate2FA(6)` and write it to the
`two_factor_auth` column of every row matching the email; errors exactly when
no row has the email (same double check as `GenerateSessionID`). -/
def updateTwoFactorCode (rand : RandSource) (db : DB) (email : String) :
    Except Err (String × DB) :=
  let code := generate2FA rand 6
  let db2 := db.map (fun u =>
    if u.email = email then { u with twoFactorAuth := code } else u)
  if db.any (fun u => u.email = email) then .ok (code, db2)
  else .error (.twoFactorUpdateFailed email)

/-- Auto-increment id assignment used by `gorm.Create`. -/
def nextID (db : DB) : Nat := db.foldl (fun m u => max m u.id) 0 + 1

/-- Embedding of `dao.CreateUser`: `gorm.Create` appends the row (auto-assigned id). -/
def createUser (db : DB) (u : User) : DB := db ++ [{ u with id := nextID db }]

/-- Embedding of `dao.UpdateUser` as invoked from the Google-linking path: GORM `Updates`
with a struct argument skips zero-valued (empty-string) fields. -/
def updateUserStruct (db : DB) (id : Nat)
    (name surname email address provider providerID : String) : DB :=
  db.map (fun u =>
    if u.id = id then
      { u with
        name := if name = "" then u.name else name,
        surname := if surname = "" then u.surname else surname,
        email := if email = "" then u.email else email,
        address := if address = "" then u.address else address,
        provider := if provider = "" then u.provider else provider,
        providerID := if providerID = "" then u.providerID else providerID }
    else u)

/-- Embedding of `dao.ResetPassword`: generate a 12-character password, bcrypt-hash it,
write the hash to every row matching the email, return the plaintext;
errors on hash failure or `RowsAffected == 0`. -/
def resetPasswordDao (rand : RandSource) (hash : String → Option String)
    (db : DB) (email : String) : Except Err (String × DB) :=
  let password := generatePassword rand 12
  match hash password with
  | none => .error .hashFailed
  | some hashedPassword =>
    let db2 := db.map (fun u =>
      if u.email = email then { u with password := hashedPassword } else u)
    if db.any (fun u => u.email = email) then .ok (password, db2)
    else .error (.emailNotFound email)

/-- Embedding of `services.AuthenticateUser` (local login, step 1).  The Go code ignores
the returned errors of `IncrementFailedLogins`, `ResetFailedLogins` and
`GenerateSessionID` (on a dao error the store is simply left unchanged), and
ignores the error of the second `GetValidatedUser` (so the success payload is
an `Option`: a `nil` user pointer is `none`).  Returns the response together
with the resulting store. -/
def authenticateUser (verify : String → String → Bool) (rand : RandSource)
    (db : DB) (email password : String) : Except Err (Option User) × DB :=
  match getValidatedUser verify db email password with
  | .error e =>
    let db1 := match incrementFailedLogins db email with
               | .ok d => d
               | .error _ => db
    (.error e, db1)
  | .ok _ =>
    let db1 := match resetFailedLogins db email with
               | .ok d => d
               | .error _ => db
    let db2 := match generateSessionID rand db1 email with
               | .ok (_, d) => d
               | .error _ => db1
    (.ok (getValidatedUser verify db2 email password).toOption, db2)

/-- Embedding of `services.AuthenticateUser2FA` (login, step 2): session lookup, stored
code fetch, `if _2fa == "" || _2fa != userData.Code` rejection, then counter
reset (error ignored) and a second session lookup whose error is ignored. -/
def authenticateUser2FA (db : DB) (sessionID code : String) :
    Except Err (Option NonValidatedUser) × DB :=
  match getUserBySessionID db sessionID with
  | .error e => (.error (.userFetchFailed e), db)
  | .ok user =>
    match get2FA db sessionID with
    | .error e => (.error (.get2FAFailed e), db)
    | .ok storedCode =>
      if storedCode = "" ∨ storedCode ≠ code then
        (.error .invalidTwoFactorCode, db)
      else
        let db1 := match resetFailedLogins db user.email with
                   | .ok d => d
                   | .error _ => db
        (.ok (getUserBySessionID db1 sessionID).toOption, db1)

/-- Embedding of `services.RefreshUser2FAToken`: persist a fresh 2FA code, reject an empty
token or dao error, then dispatch it by mail (`sendOK` is the mailer;
a send failure is reported but the persisted code is kept). -/
def refreshUser2FAToken (rand : RandSource) (sendOK : String → String → Bool)
    (db : DB) (email : String) : Except Err String × DB :=
  match updateTwoFactorCode rand db email with
  | .error _ => (.error .gen2FATokenFailed, db)
  | .ok (generatedToken, db1) =>
    if generatedToken = "" then (.error .gen2FATokenFailed, db1)
    else if sendOK email generatedToken then (.ok generatedToken, db1)
    else (.error (.send2FAMailFailed email), db1)

/-- Verified claims returned by the external identity verifier
(`verifyGoogleToken`); each field is `none` when the corresponding claim is
absent or not a string (a failed Go type assertion). -/
structure GoogleClaims where
  sub : Option String
  email : Option String
  givenName : Option String
  familyName : Option String

/-- Embedding of `services.AuthenticateGoogleUser`.  `payload` is the result of the
external token verification (`none` = invalid token).  Flow: extract the
verified email (mandatory) and the other claims (defaulting to `""`); create
a `provider="google"`, empty-password account when the email is unknown, or
re-link an existing non-google account; mint a session id; fetch the user via
`GetValidatedUser(email, "")` with a DTO-based fallback.  Returns directly —
no second-factor step exists in this flow. -/
def authenticateGoogleUser (verify : String → String → Bool) (rand : RandSource)
    (payload : Option GoogleClaims) (db : DB) : Except Err (Option User) × DB :=
  match payload with
  | none => (.error .invalidGoogleToken, db)
  | some claims =>
    match claims.email with
    | none => (.error .googleEmailMissing, db)
    | some email =>
      if email = "" then (.error .googleEmailMissing, db)
      else
        let name := claims.givenName.getD ""
        let surname := claims.familyName.getD ""
        let googleID := claims.sub.getD ""
        let db1 :=
          match getUserByEmail db email with
          | .error _ =>
            createUser db
              { id := 0, name := name, surname := surname, email := email,
                sessionID := "", address := "", failedLogins := 0,
                isBlocked := false, twoFactorAuth := "", password := "",
                provider := "google", providerID := googleID,
                changePassword := false }
          | .ok existingUser =>
            if existingUser.provider ≠ "google" then
              updateUserStruct db existingUser.id existingUser.name
                existingUser.surname existingUser.email existingUser.address
                "google" googleID
            else db
        match generateSessionID rand db1 email with
        | .error e => (.error (.sessionIDGenFailed e), db1)
        | .ok (sessionID, db2) =>
          match getValidatedUser verify db2 email "" with
          | .ok user => (.ok (some user), db2)
          | .error _ =>
            match getUserByEmail db2 email with
            | .error e => (.error (.userFetchFailed e), db2)
            | .ok nv =>
              (.ok (some
                { id := nv.id, name := nv.name, surname := nv.surname,
                  email := nv.email, sessionID := sessionID,
                  address := nv.address, failedLogins := nv.failedLogins,
                  isBlocked := nv.isBlocked, twoFactorAuth := "",
                  password := "", provider := "google",
                  providerID := googleID, changePassword := false }), db2)

/-- Outcome of the password-reset service: the Go code can panic with a
nil-pointer dereference in addition to returning a value or an error. -/
inductive ResetOutcome where
  | nilDereference
  | failure (e : Err)
  | success (password : String)
  deriving DecidableEq, Repr

/-- Embedding of `services.ResetPassword`: `user, _ := dao.GetUserByEmail(email)` discards
the lookup error, so for an unknown email `user` is `nil` and the following
`user.Provider` read dereferences a nil pointer (modelled as
`ResetOutcome.nilDereference`); otherwise non-local providers are rejected
before any mutation, and local accounts get a fresh hashed password. -/
def resetPassword (rand : RandSource) (hash : String → Option String)
    (db : DB) (email : String) : ResetOutcome × DB :=
  match getUserByEmail db email with
  | .error _ => (.nilDereference, db)
  | .ok user =>
    if user.provider ≠ "local" then (.failure .unsupportedProvider, db)
    else
      match resetPasswordDao rand hash db email with
      | .error e => (.failure (.resetPasswordFailed e), db)
      | .ok (password, db1) => (.success password, db1)

/-- Iterating `n` consecutive local login attempts with the same request, threading the
store: the state reached after `n` calls to `services.AuthenticateUser`. -/
def iterateLogin (verify : String → String → Bool) (rand : RandSource)
    (email password : String) (db : DB) : Nat → DB
  | 0 => db
  | n + 1 =>
    (authenticateUser verify rand
      (iterateLogin verify rand email password db n) email password).2

/-! ## Helper lemmas about the store embedding -/

theorem any_of_find {db : DB} {p : User → Bool} {u : User}
    (h : db.find? p = some u) : db.any p = true :=
  List.any_eq_true.mpr ⟨u, List.mem_of_find?_eq_some h, List.find?_some h⟩

theorem find_map_comm (db : DB) (p : User → Bool) (g : User → User)
    (hg : ∀ v, p (g v) = p v) :
    (db.map g).find? p = (db.find? p).map g := by
  rw [List.find?_map]
  have hpg : (p ∘ g) = p := funext hg
  rw [hpg]

/-- Looking up an email after a field update keyed on the same email: the
update commutes with the lookup as long as it does not rewrite the email. -/
theorem findByEmail_map_update (db : DB) (email : String) (f : User → User)
    (hf : ∀ v, (f v).email = v.email) :
    findByEmail (db.map (fun v => if v.email = email then f v else v)) email
      = (findByEmail db email).map (fun v => if v.email = email then f v else v) := by
  unfold findByEmail
  apply find_map_comm
  intro v
  by_cases h : v.email = email <;> simp [h, hf]

theorem email_of_find {db : DB} {email : String} {u : User}
    (h : findByEmail db email = some u) : u.email = email := by
  unfold findByEmail at h
  have hp := List.find?_some h
  exact of_decide_eq_true hp

theorem updateLoginData_ok {db : DB} {email : String} {u : User}
    (hfind : findByEmail db email = some u) (fl : Nat) (bl : Bool) :
    updateLoginData db email fl bl =
      .ok (db.map (fun v => if v.email = email then
            { v with failedLogins := fl, isBlocked := bl } else v)) := by
  unfold updateLoginData
  simp only [any_of_find hfind, if_true]

theorem findByEmail_updateLoginData {db : DB} {email : String} {u : User}
    (hfind : findByEmail db email = some u) (fl : Nat) (bl : Bool) :
    findByEmail (db.map (fun v => if v.email = email then
        { v with failedLogins := fl, isBlocked := bl } else v)) email =
      some { u with failedLogins := fl, isBlocked := bl } := by
  rw [findByEmail_map_update db email
      (fun v => { v with failedLogins := fl, isBlocked := bl }) (fun v => rfl), hfind]
  simp [email_of_find hfind]

theorem incrementFailedLogins_ok {db : DB} {email : String} {u : User}
    (hfind : findByEmail db email = some u) :
    incrementFailedLogins db email =
      .ok (db.map (fun v => if v.email = email then
            { v with failedLogins := u.failedLogins + 1,
                     isBlocked := decide (5 ≤ u.failedLogins + 1) } else v)) := by
  unfold incrementFailedLogins
  rw [hfind]
  exact updateLoginData_ok hfind _ _

/-- Lemma: `GetValidatedUser` takes one of its four error exits whenever the account
is a non-google one whose stored hash does not verify the submitted
password. -/
theorem getValidatedUser_fails_on_mismatch {verify : String → String → Bool}
    {db : DB} {email password : String} {u : User}
    (hfind : findByEmail db email = some u)
    (hprov : u.provider ≠ "google")
    (hpw : verify u.password password = false) :
    ∃ e, getValidatedUser verify db email password = .error e := by
  unfold getValidatedUser
  rw [hfind]
  by_cases hb : u.isBlocked
  · exact ⟨.accountBlocked, by simp [hb]⟩
  · by_cases hempty : password = ""
    · exact ⟨.passwordRequired, by simp [hb, hprov, hempty]⟩
    · refine ⟨.invalidCredentials, ?_⟩
      have hhash : getUserHashedPassword db email = u.password := by
        unfold getUserHashedPassword; rw [hfind]
      simp [hb, hprov, hempty, hhash, hpw]

/-- A failed `AuthenticateUser` call: the service returns the dao error and
the store after `IncrementFailedLogins` (counter + 1, blocked recomputed
against the threshold 5). -/
theorem authenticateUser_failed_step {verify : String → String → Bool}
    {rand : RandSource} {db : DB} {email password : String} {u : User}
    (hfind : findByEmail db email = some u)
    (hprov : u.provider ≠ "google")
    (hpw : verify u.password password = false) :
    ∃ e, authenticateUser verify rand db email password =
      (.error e,
       db.map (fun v => if v.email = email then
         { v with failedLogins := u.failedLogins + 1,
                  isBlocked := decide (5 ≤ u.failedLogins + 1) } else v)) := by
  obtain ⟨e, he⟩ := getValidatedUser_fails_on_mismatch hfind hprov hpw
  refine ⟨e, ?_⟩
  unfold authenticateUser
  rw [he, incrementFailedLogins_ok hfind]

/-- Invariant behind C1: starting from a fresh account (counter 0, not
blocked) whose password never verifies, after `n` login attempts the stored
row carries counter `n` and blocked flag `(n ≥ 5)`. -/
theorem iterateLogin_failed_state {verify : String → String → Bool}
    {rand : RandSource} {email password : String} {db : DB} {u : User}
    (hfind : findByEmail db email = some u)
    (hprov : u.provider ≠ "google")
    (hpw : verify u.password password = false)
    (h0 : u.failedLogins = 0) (hb : u.isBlocked = false) :
    ∀ n : Nat,
      findByEmail (iterateLogin verify rand email password db n) email =
        some { u with failedLogins := n, isBlocked := decide (5 ≤ n) } := by
  intro n
  induction n with
  | zero =>
    have : ({ u with failedLogins := 0, isBlocked := decide (5 ≤ 0) } : User) = u := by
      cases u
      simp_all
    rw [iterateLogin, this, hfind]
  | succ n ih =>
    obtain ⟨e, he⟩ := @authenticateUser_failed_step verify rand
      (iterateLogin verify rand email password db n) email password
      { u with failedLogins := n, isBlocked := decide (5 ≤ n) }
      ih hprov hpw
    rw [iterateLogin, he]
    have := findByEmail_updateLoginData ih (n + 1) (decide (5 ≤ n + 1))
    simpa using this

theorem getValidatedUser_ok_find {verify : String → String → Bool}
    {db : DB} {email password : String} {u : User}
    (h : getValidatedUser verify db email password = .ok u) :
    findByEmail db email = some u := by
  unfold getValidatedUser at h
  cases hf : findByEmail db email with
  | none => rw [hf] at h; cases h
  | some w =>
    rw [hf] at h
    by_cases hb : w.isBlocked = true
    · simp [hb] at h
    · by_cases hg : w.provider = "google"
      · simp [hb, hg] at h; rw [h]
      · by_cases hp : password = ""
        · simp [hb, hg, hp] at h
        · by_cases hv : verify (getUserHashedPassword db email) password = true
          · simp [hb, hg, hp, hv] at h; rw [h]
          · simp [hb, hg, hp, hv] at h

theorem findByEmail_map_sessionID {db : DB} {email : String} {u : User}
    (hfind : findByEmail db email = some u) (sid : String) :
    findByEmail (db.map (fun v =>
        if v.email = email then { v with sessionID := sid } else v)) email
      = some { u with sessionID := sid } := by
  rw [findByEmail_map_update db email
      (fun v => { v with sessionID := sid }) (fun v => rfl), hfind]
  simp [email_of_find hfind]

/-- An update keyed on an email no row carries is the identity. -/
theorem map_update_of_absent {db : DB} {email : String} (f : User → User)
    (h : findByEmail db email = none) :
    db.map (fun v => if v.email = email then f v else v) = db := by
  unfold findByEmail at h
  rw [List.find?_eq_none] at h
  have hid : ∀ v ∈ db, (fun v => if v.email = email then f v else v) v = id v := by
    intro v hv
    have hne := h v hv
    simp only [decide_eq_true_eq] at hne
    simp [hne]
  rw [List.map_congr_left hid, List.map_id]

/-- A successful `AuthenticateUser`: counter reset, blocked cleared, and the
freshly minted session identifier stored, all persisted on the account row. -/
theorem authenticateUser_success_eval {verify : String → String → Bool}
    {rand : RandSource} {db : DB} {email password : String} {u : User}
    (hok : getValidatedUser verify db email password = .ok u) :
    ∃ db2, authenticateUser verify rand db email password
        = (.ok (getValidatedUser verify db2 email password).toOption, db2) ∧
      findByEmail db2 email
        = some { u with failedLogins := 0, isBlocked := false,
                        sessionID := generate2FA rand 50 } := by
  have hfind := getValidatedUser_ok_find hok
  have hfind1 := findByEmail_updateLoginData hfind 0 false
  unfold authenticateUser
  rw [hok]
  unfold resetFailedLogins
  rw [updateLoginData_ok hfind 0 false]
  unfold generateSessionID
  simp only [any_of_find hfind1, if_true]
  refine ⟨_, rfl, ?_⟩
  have hsid := findByEmail_map_sessionID hfind1 (generate2FA rand 50)
  simpa using hsid

/-- A successful `AuthenticateUser2FA` call: the stored code is non-empty and
matches, so the service resets the lockout fields of every row carrying the
account's email and reports success. -/
theorem authenticateUser2FA_success_eval {db : DB} {sid code : String} {w : User}
    (hfind : findBySessionID db sid = some w)
    (hne : w.twoFactorAuth ≠ "") (heq : w.twoFactorAuth = code) :
    (authenticateUser2FA db sid code).2
      = db.map (fun v => if v.email = w.email then
          { v with failedLogins := 0, isBlocked := false } else v) ∧
    ∃ r, (authenticateUser2FA db sid code).1 = .ok r := by
  have hw : w ∈ db := by
    unfold findBySessionID at hfind
    exact List.mem_of_find?_eq_some hfind
  have hgus : getUserBySessionID db sid
      = .ok { id := w.id, name := w.name, surname := w.surname,
              email := w.email, address := w.address,
              failedLogins := w.failedLogins, isBlocked := w.isBlocked,
              provider := "" } := by
    unfold getUserBySessionID
    rw [hfind]
  have h2fa : get2FA db sid = .ok w.twoFactorAuth := by
    unfold get2FA
    rw [hfind]
  have hcond : ¬ (w.twoFactorAuth = "" ∨ w.twoFactorAuth ≠ code) := by
    push_neg
    exact ⟨hne, heq⟩
  have hany : db.any (fun v => v.email = w.email) = true :=
    List.any_eq_true.mpr ⟨w, hw, by simp⟩
  have hreset : resetFailedLogins db w.email
      = .ok (db.map (fun v => if v.email = w.email then
          { v with failedLogins := 0, isBlocked := false } else v)) := by
    unfold resetFailedLogins updateLoginData
    simp only [hany, if_true]
  unfold authenticateUser2FA
  simp only [hgus, h2fa]
  rw [if_neg hcond]
  simp only [hreset]
  constructor
  · simp
  · exact ⟨_, rfl⟩

/-! ## Concrete fixtures for witness theorems -/

/-- A fresh local account. -/
def localUser : User :=
  { id := 1, name := "Ana", surname := "Diaz", email := "a@x.com",
    sessionID := "OLDSESSION", address := "Street 1", failedLogins := 0,
    isBlocked := false, twoFactorAuth := "123456", password := "HASH",
    provider := "local", providerID := "", changePassword := false }

/-- A blocked local account. -/
def blockedUser : User :=
  { localUser with id := 2, email := "b@x.com", failedLogins := 5,
                   isBlocked := true }

/-- A local account with a nonzero failed-login counter, not yet blocked. -/
def strugglingUser : User := { localUser with failedLogins := 4 }

/-- A google-provider account (empty stored hash). -/
def googleUser : User :=
  { id := 3, name := "Gus", surname := "Perez", email := "g@x.com",
    sessionID := "GSESSION", address := "", failedLogins := 0,
    isBlocked := false, twoFactorAuth := "", password := "",
    provider := "google", providerID := "sub123", changePassword := false }

/-! ## Claim theorems -/

/-- C1: each failed local login increments the stored failed-login counter by
exactly 1 and then sets the blocked flag to (counter ≥ 5); consequently,
starting from a fresh account whose password never verifies, after `n`
consecutive failed local logins the stored counter is `n` and the blocked
flag is `(n ≥ 5)` — false for all `n < 5` and true at `n = 5`. -/
theorem failedLogin_increments_and_locks_at_threshold
    (verify : String → String → Bool) (rand : RandSource)
    (email password : String) (db : DB) (u : User)
    (hfind : findByEmail db email = some u)
    (hprov : u.provider ≠ "google")
    (hpw : verify u.password password = false)
    (h0 : u.failedLogins = 0) (hb : u.isBlocked = false) :
    (∀ db2 u2, findByEmail db2 email = some u2 →
       ∃ db3, incrementFailedLogins db2 email = .ok db3 ∧
         findByEmail db3 email =
           some { u2 with failedLogins := u2.failedLogins + 1,
                          isBlocked := decide (5 ≤ u2.failedLogins + 1) }) ∧
    ∀ n : Nat,
      findByEmail (iterateLogin verify rand email password db n) email =
        some { u with failedLogins := n, isBlocked := decide (5 ≤ n) } := by
  constructor
  · intro db2 u2 h2
    exact ⟨_, incrementFailedLogins_ok h2, findByEmail_updateLoginData h2 _ _⟩
  · exact iterateLogin_failed_state hfind hprov hpw h0 hb

theorem failedLogin_increments_and_locks_at_threshold_witness :
    findByEmail [localUser] "a@x.com" = some localUser ∧
    (findByEmail (iterateLogin (fun _ _ => false) none "a@x.com" "wrong" [localUser] 4)
        "a@x.com" = some { localUser with failedLogins := 4, isBlocked := false }) ∧
    (findByEmail (iterateLogin (fun _ _ => false) none "a@x.com" "wrong" [localUser] 5)
        "a@x.com" = some { localUser with failedLogins := 5, isBlocked := true }) := by
  refine ⟨by decide, ?_, ?_⟩
  · have h := (failedLogin_increments_and_locks_at_threshold (fun _ _ => false) none
      "a@x.com" "wrong" [localUser] localUser (by decide) (by decide) rfl rfl rfl).2 4
    simpa using h
  · have h := (failedLogin_increments_and_locks_at_threshold (fun _ _ => false) none
      "a@x.com" "wrong" [localUser] localUser (by decide) (by decide) rfl rfl rfl).2 5
    simpa using h

/-- C2: a blocked account is rejected with the blocked-account error on the
local login path, for every submitted password and every behaviour of the
bcrypt verifier — the blocked check precedes any password comparison. -/
theorem blocked_account_rejected_before_password_check
    (verify : String → String → Bool) (rand : RandSource) (db : DB)
    (email password : String) (u : User)
    (hfind : findByEmail db email = some u)
    (hblocked : u.isBlocked = true) :
    getValidatedUser verify db email password = .error .accountBlocked ∧
    (authenticateUser verify rand db email password).1 = .error .accountBlocked := by
  have hgvu : getValidatedUser verify db email password = .error .accountBlocked := by
    unfold getValidatedUser
    rw [hfind]
    simp [hblocked]
  refine ⟨hgvu, ?_⟩
  unfold authenticateUser
  rw [hgvu]

theorem blocked_account_rejected_before_password_check_witness :
    findByEmail [blockedUser] "b@x.com" = some blockedUser ∧
    blockedUser.isBlocked = true ∧
    getValidatedUser (fun _ _ => true) [blockedUser] "b@x.com" "HASH"
      = .error .accountBlocked :=
  ⟨by decide, rfl,
   (blocked_account_rejected_before_password_check (fun _ _ => true) none
     [blockedUser] "b@x.com" "HASH" blockedUser (by decide) rfl).1⟩

/-- C3 counterexample: a non-blocked `google`-provider account DOES
authenticate through the local password path.  `GetValidatedUser` returns the
account for an arbitrary (wrong) password even under a bcrypt verifier that
rejects everything, and the full `AuthenticateUser` step-1 flow completes,
resetting the lockout fields and minting a session id. -/
theorem google_account_local_login_succeeds_cex :
    googleUser.provider = "google" ∧
    getValidatedUser (fun _ _ => false) [googleUser] "g@x.com" "any-password"
      = .ok googleUser ∧
    (authenticateUser (fun _ _ => false) (some (fun _ => 0)) [googleUser]
        "g@x.com" "any-password").1
      = .ok (some
          { googleUser with
              failedLogins := 0, isBlocked := false,
              sessionID := generate2FA (some (fun _ => 0)) 50 }) :=
  ⟨rfl, rfl, rfl⟩

/-- C3 (amended): for every `google`-provider account that is not blocked,
the local password path always SUCCEEDS, for every submitted password and
every bcrypt verifier behaviour: `GetValidatedUser` skips password validation
entirely for google users and returns the account, and `AuthenticateUser`
completes step 1 returning a google-provider user.  (Only a blocked google
account is rejected on this path.) -/
theorem google_account_local_login_skips_password
    (verify : String → String → Bool) (rand : RandSource) (db : DB)
    (email password : String) (u : User)
    (hfind : findByEmail db email = some u)
    (hnb : u.isBlocked = false)
    (hg : u.provider = "google") :
    getValidatedUser verify db email password = .ok u ∧
    ∃ v, (authenticateUser verify rand db email password).1 = .ok (some v) ∧
      v.provider = "google" := by
  have hgvu : getValidatedUser verify db email password = .ok u := by
    unfold getValidatedUser
    rw [hfind]
    simp [hnb, hg]
  refine ⟨hgvu, ?_⟩
  obtain ⟨db2, hrun, hfind2⟩ :=
    @authenticateUser_success_eval verify rand db email password u hgvu
  have hgvu2 : getValidatedUser verify db2 email password
      = .ok { u with failedLogins := 0, isBlocked := false,
                     sessionID := generate2FA rand 50 } := by
    unfold getValidatedUser
    rw [hfind2]
    simp [hg]
  refine ⟨{ u with
              failedLogins := 0, isBlocked := false,
              sessionID := generate2FA rand 50 }, ?_, hg⟩
  rw [hrun, hgvu2]
  rfl

theorem google_account_local_login_skips_password_witness :
    findByEmail [googleUser] "g@x.com" = some googleUser ∧
    googleUser.isBlocked = false ∧ googleUser.provider = "google" ∧
    getValidatedUser (fun _ _ => false) [googleUser] "g@x.com" "pw-attempt"
      = .ok googleUser :=
  ⟨by decide, rfl, rfl,
   (google_account_local_login_skips_password (fun _ _ => false) none [googleUser]
     "g@x.com" "pw-attempt" googleUser (by decide) rfl rfl).1⟩

/-- C4: Google login whose token verifies to claims with a subject, an email and given/family
names, for an email with no existing account, auto-creates an
account with provider `"google"`, provider-id equal to the verified subject
and an empty password hash, persists a freshly minted session identifier on
it, and returns the user as authenticated directly: the flow contains no
second-factor step and the stored two-factor code stays empty. -/
theorem google_login_autoprovisions_and_authenticates
    (verify : String → String → Bool) (g : Nat → Nat) (db : DB)
    (email sub givenName familyName : String)
    (hemail : email ≠ "")
    (habsent : findByEmail db email = none) :
    ∃ newU : User,
      authenticateGoogleUser verify (some g)
        (some { sub := some sub, email := some email,
                givenName := some givenName, familyName := some familyName }) db
        = (.ok (some newU), db ++ [newU]) ∧
      newU.provider = "google" ∧ newU.providerID = sub ∧
      newU.password = "" ∧ newU.email = email ∧
      newU.sessionID = generate2FA (some g) 50 ∧
      newU.twoFactorAuth = "" ∧ newU.failedLogins = 0 ∧
      newU.isBlocked = false := by
  refine ⟨{
            id := nextID db, name := givenName, surname := familyName,
            email := email, sessionID := generate2FA (some g) 50, address := "",
            failedLogins := 0, isBlocked := false, twoFactorAuth := "",
            password := "", provider := "google", providerID := sub,
            changePassword := false },
          ?_, rfl, rfl, rfl, rfl, rfl, rfl, rfl, rfl⟩
  have hgue : getUserByEmail db email = .error (.emailReadFailed email) := by
    unfold getUserByEmail
    rw [habsent]
  have hfind2 : findByEmail (db ++ [({
            id := nextID db, name := givenName, surname := familyName,
            email := email, sessionID := generate2FA (some g) 50, address := "",
            failedLogins := 0, isBlocked := false, twoFactorAuth := "",
            password := "", provider := "google", providerID := sub,
            changePassword := false } : User)]) email
      = some ({
            id := nextID db, name := givenName, surname := familyName,
            email := email, sessionID := generate2FA (some g) 50, address := "",
            failedLogins := 0, isBlocked := false, twoFactorAuth := "",
            password := "", provider := "google", providerID := sub,
            changePassword := false } : User) := by
    unfold findByEmail at habsent ⊢
    rw [List.find?_append, habsent]
    simp
  have hsid : generateSessionID (some g) (db ++ [({
            id := nextID db, name := givenName, surname := familyName,
            email := email, sessionID := "", address := "",
            failedLogins := 0, isBlocked := false, twoFactorAuth := "",
            password := "", provider := "google", providerID := sub,
            changePassword := false } : User)]) email
      = .ok (generate2FA (some g) 50, db ++ [({
            id := nextID db, name := givenName, surname := familyName,
            email := email, sessionID := generate2FA (some g) 50, address := "",
            failedLogins := 0, isBlocked := false, twoFactorAuth := "",
            password := "", provider := "google", providerID := sub,
            changePassword := false } : User)]) := by
    unfold generateSessionID
    simp only [List.map_append, List.any_append, map_update_of_absent _ habsent]
    simp
  have hgv : getValidatedUser verify (db ++ [({
            id := nextID db, name := givenName, surname := familyName,
            email := email, sessionID := generate2FA (some g) 50, address := "",
            failedLogins := 0, isBlocked := false, twoFactorAuth := "",
            password := "", provider := "google", providerID := sub,
            changePassword := false } : User)]) email ""
      = .ok ({
            id := nextID db, name := givenName, surname := familyName,
            email := email, sessionID := generate2FA (some g) 50, address := "",
            failedLogins := 0, isBlocked := false, twoFactorAuth := "",
            password := "", provider := "google", providerID := sub,
            changePassword := false } : User) := by
    unfold getValidatedUser
    rw [hfind2]
    simp
  unfold authenticateGoogleUser
  simp only [Option.getD]
  rw [if_neg hemail]
  simp only [hgue, createUser]
  rw [hsid]
  simp only [hgv]

theorem google_login_autoprovisions_and_authenticates_witness :
    ("g@x.com" : String) ≠ "" ∧ findByEmail [] "g@x.com" = none ∧
    ∃ newU : User,
      authenticateGoogleUser (fun _ _ => false) (some (fun _ => 0))
        (some { sub := some "sub123", email := some "g@x.com",
                givenName := some "G", familyName := some "F" }) []
        = (.ok (some newU), [] ++ [newU]) ∧
      newU.provider = "google" ∧ newU.providerID = "sub123" ∧
      newU.password = "" ∧ newU.email = "g@x.com" ∧
      newU.sessionID = generate2FA (some (fun _ => 0)) 50 ∧
      newU.twoFactorAuth = "" ∧ newU.failedLogins = 0 ∧
      newU.isBlocked = false :=
  ⟨by decide, rfl,
   google_login_autoprovisions_and_authenticates (fun _ _ => false) (fun _ => 0)
     [] "g@x.com" "sub123" "G" "F" (by decide) rfl⟩

/-- C5: a successful local login resets the account's failed-login counter to
0 and its blocked flag to false and persists the freshly generated session
identifier on the account (overwriting the stored one); a successful 2FA
verification likewise resets counter and blocked flag. -/
theorem login_and_twofactor_success_reset_lockout
    (verify : String → String → Bool) (rand : RandSource) (db : DB)
    (email password : String) (u : User)
    (hok : getValidatedUser verify db email password = .ok u) :
    (∃ u2, findByEmail (authenticateUser verify rand db email password).2 email
        = some u2 ∧
      u2.failedLogins = 0 ∧ u2.isBlocked = false ∧
      u2.sessionID = generate2FA rand 50) ∧
    (∀ (db3 : DB) (sid code : String) (w : User),
       findBySessionID db3 sid = some w →
       w.twoFactorAuth ≠ "" → w.twoFactorAuth = code →
       ∃ u3, findByEmail (authenticateUser2FA db3 sid code).2 w.email = some u3 ∧
         u3.failedLogins = 0 ∧ u3.isBlocked = false) := by
  constructor
  · obtain ⟨db2, hrun, hfind2⟩ :=
      @authenticateUser_success_eval verify rand db email password u hok
    refine ⟨{ u with
                failedLogins := 0, isBlocked := false,
                sessionID := generate2FA rand 50 },
            ?_, rfl, rfl, rfl⟩
    rw [hrun]
    exact hfind2
  · intro db3 sid code w hfind hne heq
    obtain ⟨hdb, -⟩ := authenticateUser2FA_success_eval hfind hne heq
    have hw : w ∈ db3 := by
      unfold findBySessionID at hfind
      exact List.mem_of_find?_eq_some hfind
    have hsome : (findByEmail db3 w.email).isSome := by
      unfold findByEmail
      exact List.find?_isSome.mpr ⟨w, hw, by simp⟩
    obtain ⟨w0, hw0⟩ := Option.isSome_iff_exists.mp hsome
    refine ⟨{ w0 with failedLogins := 0, isBlocked := false }, ?_, rfl, rfl⟩
    rw [hdb]
    exact findByEmail_updateLoginData hw0 0 false

theorem login_and_twofactor_success_reset_lockout_witness :
    getValidatedUser (fun _ _ => true) [strugglingUser] "a@x.com" "pw123456"
      = .ok strugglingUser ∧
    (∃ u2, findByEmail
        (authenticateUser (fun _ _ => true) (some (fun _ => 0)) [strugglingUser]
          "a@x.com" "pw123456").2 "a@x.com" = some u2 ∧
      u2.failedLogins = 0 ∧ u2.isBlocked = false ∧
      u2.sessionID = generate2FA (some (fun _ => 0)) 50) := by
  have hok : getValidatedUser (fun _ _ => true) [strugglingUser] "a@x.com" "pw123456"
      = .ok strugglingUser := rfl
  exact ⟨hok,
    (login_and_twofactor_success_reset_lockout (fun _ _ => true)
      (some (fun _ => 0)) [strugglingUser] "a@x.com" "pw123456"
      strugglingUser hok).1⟩

/-- C6: 2FA verification fails with the wrapped session-not-found error when
no account carries the submitted session identifier; it fails with the
invalid-two-factor-code error (leaving the store untouched) whenever the
stored code is empty or differs from the submitted code under exact string
equality; and it succeeds whenever the stored code is non-empty and exactly
equal to the submitted code. -/
theorem twofactor_verification_error_taxonomy :
    (∀ (db : DB) (sid code : String),
       findBySessionID db sid = none →
       authenticateUser2FA db sid code
         = (.error (.userFetchFailed (.sessionNotFound sid)), db)) ∧
    (∀ (db : DB) (sid code : String) (w : User),
       findBySessionID db sid = some w →
       w.twoFactorAuth = "" ∨ w.twoFactorAuth ≠ code →
       authenticateUser2FA db sid code = (.error .invalidTwoFactorCode, db)) ∧
    (∀ (db : DB) (sid code : String) (w : User),
       findBySessionID db sid = some w →
       w.twoFactorAuth ≠ "" → w.twoFactorAuth = code →
       ∃ r, (authenticateUser2FA db sid code).1 = .ok r) := by
  refine ⟨?_, ?_, ?_⟩
  · intro db sid code h
    have hgus : getUserBySessionID db sid = .error (.sessionNotFound sid) := by
      unfold getUserBySessionID
      rw [h]
    unfold authenticateUser2FA
    rw [hgus]
  · intro db sid code w hfind hbad
    have hgus : getUserBySessionID db sid
        = .ok { id := w.id, name := w.name, surname := w.surname,
                email := w.email, address := w.address,
                failedLogins := w.failedLogins, isBlocked := w.isBlocked,
                provider := "" } := by
      unfold getUserBySessionID
      rw [hfind]
    have h2fa : get2FA db sid = .ok w.twoFactorAuth := by
      unfold get2FA
      rw [hfind]
    unfold authenticateUser2FA
    simp only [hgus, h2fa]
    rw [if_pos hbad]
  · intro db sid code w hfind hne heq
    exact (authenticateUser2FA_success_eval hfind hne heq).2

theorem twofactor_verification_error_taxonomy_witness :
    (authenticateUser2FA [localUser] "NOSUCHSESSION" "123456"
      = (.error (.userFetchFailed (.sessionNotFound "NOSUCHSESSION")), [localUser])) ∧
    (authenticateUser2FA [localUser] "OLDSESSION" "WRONG1"
      = (.error .invalidTwoFactorCode, [localUser])) ∧
    ∃ r, (authenticateUser2FA [localUser] "OLDSESSION" "123456").1 = .ok r :=
  ⟨(twofactor_verification_error_taxonomy).1 [localUser] "NOSUCHSESSION" "123456"
     (by decide),
   (twofactor_verification_error_taxonomy).2.1 [localUser] "OLDSESSION" "WRONG1"
     localUser (by decide) (by decide),
   (twofactor_verification_error_taxonomy).2.2 [localUser] "OLDSESSION" "123456"
     localUser (by decide) (by decide) rfl⟩

/-! ## Token generator shape lemmas -/

theorem alpha36_getD_mem (b : Nat) :
    alpha36.getD (b % alpha36.length) 'A' ∈ alpha36 := by
  have hlt : b % alpha36.length < alpha36.length := Nat.mod_lt _ (by decide)
  rw [List.getD_eq_getElem?_getD, List.getElem?_eq_getElem hlt]
  exact List.getElem_mem hlt

theorem alpha70_getD_mem (b : Nat) :
    alpha70.getD (b % alpha70.length) 'A' ∈ alpha70 := by
  have hlt : b % alpha70.length < alpha70.length := Nat.mod_lt _ (by decide)
  rw [List.getD_eq_getElem?_getD, List.getElem?_eq_getElem hlt]
  exact List.getElem_mem hlt

theorem generate2FA_some_shape (g : Nat → Nat) (n : Nat) :
    (generate2FA (some g) n).length = n ∧
    ∀ c ∈ (generate2FA (some g) n).toList, c ∈ alpha36 := by
  constructor
  · simp [generate2FA]
  · intro c hc
    simp only [generate2FA, String.toList, String.data] at hc
    obtain ⟨i, _, rfl⟩ := List.mem_map.mp hc
    exact alpha36_getD_mem _

theorem generatePassword_some_shape (g : Nat → Nat) (n : Nat) :
    (generatePassword (some g) n).length = n ∧
    ∀ c ∈ (generatePassword (some g) n).toList, c ∈ alpha70 := by
  constructor
  · simp [generatePassword]
  · intro c hc
    simp only [generatePassword, String.toList, String.data] at hc
    obtain ⟨i, _, rfl⟩ := List.mem_map.mp hc
    exact alpha70_getD_mem _

theorem updateTwoFactorCode_ok_token {rand : RandSource} {db : DB}
    {email code : String} {db1 : DB}
    (h : updateTwoFactorCode rand db email = .ok (code, db1)) :
    code = generate2FA rand 6 := by
  simp only [updateTwoFactorCode] at h
  split_ifs at h
  rw [Except.ok.injEq, Prod.mk.injEq] at h
  exact h.1.symm

theorem generateSessionID_ok_token {rand : RandSource} {db : DB}
    {email sid : String} {db2 : DB}
    (h : generateSessionID rand db email = .ok (sid, db2)) :
    sid = generate2FA rand 50 := by
  simp only [generateSessionID] at h
  split_ifs at h
  rw [Except.ok.injEq, Prod.mk.injEq] at h
  exact h.1.symm

theorem resetPasswordDao_ok_token {rand : RandSource}
    {hash : String → Option String} {db : DB} {email pwd : String} {db2 : DB}
    (h : resetPasswordDao rand hash db email = .ok (pwd, db2)) :
    pwd = generatePassword rand 12 := by
  simp only [resetPasswordDao] at h
  cases hh : hash (generatePassword rand 12) with
  | none => rw [hh] at h; simp at h
  | some hp =>
    rw [hh] at h
    split_ifs at h
    rw [Except.ok.injEq, Prod.mk.injEq] at h
    exact h.1.symm

theorem refreshUser2FAToken_ok_token {rand : RandSource}
    {send : String → String → Bool} {db : DB} {email tok : String} {db2 : DB}
    (h : refreshUser2FAToken rand send db email = (.ok tok, db2)) :
    tok = generate2FA rand 6 ∧ tok ≠ "" := by
  unfold refreshUser2FAToken at h
  cases hup : updateTwoFactorCode rand db email with
  | error e => rw [hup] at h; simp at h
  | ok p =>
    obtain ⟨code, db1⟩ := p
    rw [hup] at h
    dsimp only [] at h
    split_ifs at h with h1 h2
    · simp at h
    · rw [Prod.mk.injEq, Except.ok.injEq] at h
      obtain ⟨rfl, -⟩ := h
      exact ⟨updateTwoFactorCode_ok_token hup, h1⟩
    · simp at h

/-- C7: every 2FA code returned by a successful refresh is exactly 6
characters drawn from the 36-character digits-plus-uppercase alphabet; every
session identifier minted by `GenerateSessionID` under a working random
source is exactly 50 characters from the same alphabet; every temporary
password generated by the dao password reset under a working random source is
exactly 12 characters from the 70-character extended alphabet. -/
theorem generated_token_lengths_and_alphabets :
    (∀ (rand : RandSource) (send : String → String → Bool) (db : DB)
       (email tok : String) (db2 : DB),
       refreshUser2FAToken rand send db email = (.ok tok, db2) →
       tok.length = 6 ∧ ∀ c ∈ tok.toList, c ∈ alpha36) ∧
    (∀ (g : Nat → Nat) (db : DB) (email sid : String) (db2 : DB),
       generateSessionID (some g) db email = .ok (sid, db2) →
       sid.length = 50 ∧ ∀ c ∈ sid.toList, c ∈ alpha36) ∧
    (∀ (g : Nat → Nat) (hash : String → Option String) (db : DB)
       (email pwd : String) (db2 : DB),
       resetPasswordDao (some g) hash db email = .ok (pwd, db2) →
       pwd.length = 12 ∧ ∀ c ∈ pwd.toList, c ∈ alpha70) := by
  refine ⟨?_, ?_, ?_⟩
  · intro rand send db email tok db2 h
    obtain ⟨htok, hne⟩ := refreshUser2FAToken_ok_token h
    cases rand with
    | none =>
      simp only [generate2FA] at htok
      exact absurd htok hne
    | some g =>
      rw [htok]
      exact generate2FA_some_shape g 6
  · intro g db email sid db2 h
    rw [generateSessionID_ok_token h]
    exact generate2FA_some_shape g 50
  · intro g hash db email pwd db2 h
    rw [resetPasswordDao_ok_token h]
    exact generatePassword_some_shape g 12

theorem generated_token_lengths_and_alphabets_witness :
    (("000000" : String).length = 6 ∧
      ∀ c ∈ ("000000" : String).toList, c ∈ alpha36) ∧
    (("00000000000000000000000000000000000000000000000000" : String).length = 50 ∧
      ∀ c ∈ ("00000000000000000000000000000000000000000000000000" : String).toList,
        c ∈ alpha36) ∧
    (("000000000000" : String).length = 12 ∧
      ∀ c ∈ ("000000000000" : String).toList, c ∈ alpha70) := by
  refine ⟨?_, ?_, ?_⟩
  · exact (generated_token_lengths_and_alphabets).1 (some (fun _ => 0))
      (fun _ _ => true) [localUser] "a@x.com" "000000"
      [{ localUser with twoFactorAuth := "000000" }] rfl
  · exact (generated_token_lengths_and_alphabets).2.1 (fun _ => 0) [localUser]
      "a@x.com" "00000000000000000000000000000000000000000000000000"
      [{ localUser with
           sessionID := "00000000000000000000000000000000000000000000000000" }] rfl
  · exact (generated_token_lengths_and_alphabets).2.2 (fun _ => 0)
      (fun s => some s) [localUser] "a@x.com" "000000000000"
      [{ localUser with password := "000000000000" }] rfl

/-- C8: a password-reset request for an existing account whose provider is
not `local` fails with the unsupported-provider error and performs no
mutation: the store returned alongside the error is exactly the input store,
so the password hash, the change-password flag and every other field are
unchanged. -/
theorem reset_password_nonlocal_rejected_without_mutation
    (rand : RandSource) (hash : String → Option String) (db : DB)
    (email : String) (u : User)
    (hfind : findByEmail db email = some u)
    (hprov : u.provider ≠ "local") :
    resetPassword rand hash db email = (.failure .unsupportedProvider, db) := by
  unfold resetPassword getUserByEmail
  rw [hfind]
  simp [hprov]

theorem reset_password_nonlocal_rejected_without_mutation_witness :
    findByEmail [googleUser] "g@x.com" = some googleUser ∧
    googleUser.provider ≠ "local" ∧
    resetPassword none (fun s => some s) [googleUser] "g@x.com"
      = (.failure .unsupportedProvider, [googleUser]) :=
  ⟨by decide, by decide,
   reset_password_nonlocal_rejected_without_mutation none (fun s => some s)
     [googleUser] "g@x.com" googleUser (by decide) (by decide)⟩

/-- C9 counterexample: a failed 2FA verification does not persist any counter
increment — on a store holding one account with counter 0, a wrong code
returns the invalid-code failure with the store unchanged, so no row carries
counter 1. -/
theorem twofactor_failure_does_not_increment_cex :
    (authenticateUser2FA [localUser] "OLDSESSION" "WRONG1").1
      = .error .invalidTwoFactorCode ∧
    (authenticateUser2FA [localUser] "OLDSESSION" "WRONG1").2 = [localUser] ∧
    localUser.failedLogins = 0 ∧
    ¬ ∃ u2, findByEmail (authenticateUser2FA [localUser] "OLDSESSION" "WRONG1").2
        "a@x.com" = some u2 ∧ u2.failedLogins = localUser.failedLogins + 1 := by
  refine ⟨rfl, by decide, rfl, ?_⟩
  rintro ⟨u2, h1, h2⟩
  have hv : findByEmail (authenticateUser2FA [localUser] "OLDSESSION" "WRONG1").2
      "a@x.com" = some localUser := by decide
  rw [hv] at h1
  injection h1 with h1
  rw [← h1] at h2
  exact absurd h2 (by decide)

/-- C9 (amended): on every failed local login attempt the already-applied
failed-login counter increment is persisted even though the call returns a
failure to the caller (failure responses are not rollbacks); a failed 2FA
verification, by contrast, applies no counter mutation at all — it returns
its failure with the store unchanged. -/
theorem failed_login_increment_persisted_and_failed_2fa_pure :
    (∀ (verify : String → String → Bool) (rand : RandSource) (db : DB)
       (email password : String) (u : User) (e : Err),
       findByEmail db email = some u →
       getValidatedUser verify db email password = .error e →
       (authenticateUser verify rand db email password).1 = .error e ∧
       ∃ u2, findByEmail (authenticateUser verify rand db email password).2 email
           = some u2 ∧
         u2.failedLogins = u.failedLogins + 1) ∧
    (∀ (db : DB) (sid code : String) (e : Err),
       (authenticateUser2FA db sid code).1 = .error e →
       (authenticateUser2FA db sid code).2 = db) := by
  constructor
  · intro verify rand db email password u e hfind herr
    have hinc := incrementFailedLogins_ok hfind
    constructor
    · unfold authenticateUser
      rw [herr]
    · refine ⟨{ u with
                  failedLogins := u.failedLogins + 1,
                  isBlocked := decide (5 ≤ u.failedLogins + 1) }, ?_, rfl⟩
      unfold authenticateUser
      rw [herr, hinc]
      exact findByEmail_updateLoginData hfind _ _
  · intro db sid code e herr
    unfold authenticateUser2FA at herr ⊢
    cases hgus : getUserBySessionID db sid with
    | error e2 => rfl
    | ok user =>
      dsimp only [] at herr ⊢
      cases h2 : get2FA db sid with
      | error e3 => rfl
      | ok stored =>
        dsimp only [] at herr ⊢
        by_cases hcond : stored = "" ∨ stored ≠ code
        · rw [if_pos hcond]
        · rw [hgus] at herr
          dsimp only [] at herr
          rw [h2] at herr
          dsimp only [] at herr
          rw [if_neg hcond] at herr
          simp at herr

theorem failed_login_increment_persisted_and_failed_2fa_pure_witness :
    ((authenticateUser (fun _ _ => false) none [localUser] "a@x.com" "wrong").1
       = .error .invalidCredentials ∧
     ∃ u2, findByEmail
         (authenticateUser (fun _ _ => false) none [localUser] "a@x.com" "wrong").2
         "a@x.com" = some u2 ∧
       u2.failedLogins = localUser.failedLogins + 1) ∧
    (authenticateUser2FA [localUser] "OLDSESSION" "WRONG1").2 = [localUser] :=
  ⟨(failed_login_increment_persisted_and_failed_2fa_pure).1 (fun _ _ => false)
     none [localUser] "a@x.com" "wrong" localUser .invalidCredentials
     (by decide) rfl,
   (failed_login_increment_persisted_and_failed_2fa_pure).2 [localUser]
     "OLDSESSION" "WRONG1" .invalidTwoFactorCode rfl⟩

/-- C10: for every email with no matching account, the password-reset service
discards the lookup error and dereferences the absent (nil) account record to
read its provider field: the call crashes with a nil-pointer dereference and
the unknown-email branch never produces a typed error result (nor a success
result). -/
theorem reset_password_unknown_email_crashes
    (rand : RandSource) (hash : String → Option String) (db : DB)
    (email : String)
    (habsent : findByEmail db email = none) :
    resetPassword rand hash db email = (.nilDereference, db) ∧
    (∀ e, (resetPassword rand hash db email).1 ≠ .failure e) ∧
    (∀ p, (resetPassword rand hash db email).1 ≠ .success p) := by
  have h : resetPassword rand hash db email = (.nilDereference, db) := by
    unfold resetPassword getUserByEmail
    rw [habsent]
  refine ⟨h, ?_, ?_⟩ <;> intro x <;> rw [h] <;> simp

theorem reset_password_unknown_email_crashes_witness :
    findByEmail [] "ghost@x.com" = none ∧
    resetPassword none (fun s => some s) [] "ghost@x.com"
      = (.nilDereference, []) :=
  ⟨rfl,
   (reset_password_unknown_email_crashes none (fun s => some s) [] "ghost@x.com"
     rfl).1⟩

end AdoptionSystem
